import Mathlib

/-!
Verification model of src/social_post_generator.py from the repository
social-media-post-generator.  The Python module is shallowly embedded:
pure string manipulation is translated to Lean functions over String
(Python strings are sequences of code points, matching String.data),
and every HTTP interaction is abstracted by an explicit outcome value
passed in as an oracle argument, so that each function of the source
becomes a total, executable Lean definition.
-/

/-! Python string primitives, modelled on the code-point sequence. -/

/-- Model of the Python method str.startswith: the code points of the
pattern form a prefix of the code points of the string. -/
def str_startswith (s pat : String) : Bool := pat.data.isPrefixOf s.data

/-- Model of the Python method str.lower, applied code point by code point. -/
def str_lower (s : String) : String := String.mk (s.data.map Char.toLower)

/-- Model of the Python slice s[:n] (first n code points). -/
def str_take (s : String) (n : Nat) : String := String.mk (s.data.take n)

/-- Model of the Python method str.strip: drop whitespace from both ends. -/
def str_strip (s : String) : String :=
  String.mk (((s.data.dropWhile Char.isWhitespace).reverse.dropWhile Char.isWhitespace).reverse)

/-- Character class of the regex fragment [0-9A-Za-z_-] used for Gemini keys
(Char.isAlphanum covers exactly the ASCII letters and digits). -/
def isGeminiChar (c : Char) : Bool := c.isAlphanum || c == '_' || c == '-'

/-- Code-point form of the regex AIza[0-9A-Za-z_-]\x7b35\x7d anchored at both
ends: the literal AIza followed by exactly 35 characters of the class. -/
def gemini_shape (l : List Char) : Bool :=
  "AIza".data.isPrefixOf l && l.length == 39 && (l.drop 4).all isGeminiChar

/-- Model of re.match applied to the pattern of line 20 of the source.  The
Python dollar anchor also matches just before one trailing newline, so that
alternative is included. -/
def gemini_key_match (s : String) : Bool :=
  gemini_shape s.data || (s.data.getLast? == some '\n' && gemini_shape s.data.dropLast)

/-! Network model.  All HTTP requests of the source are abstracted by
outcome values: the request either raised a transport exception or came
back with a status code, a raw body text and a parse outcome for the
provider-specific extraction path applied to the decoded JSON body. -/

/-- Outcome of the single probe request of detect_api_service (line 34):
either the requests.get call raised, or it returned some status code. -/
inductive ProbeResult where
  | exc (e : String)
  | status (code : Nat)

/-- Outcome of decoding a response body and extracting the generated text.
jsonError models response.json() itself raising (caught only by the outer
generic handler); shapeError models a missing key or an out-of-range index
along the provider-specific extraction path; content is the extracted text
before the final str.strip call. -/
inductive BodyParse where
  | jsonError (e : String)
  | shapeError (e : String)
  | content (text : String)

/-- An HTTP response: status code, raw body text (response.text) and the
body-parse outcome. -/
structure HttpResp where
  status : Nat
  text : String
  body : BodyParse

/-- Outcome of one requests.post call: a transport exception or a response. -/
inductive NetOutcome where
  | exc (e : String)
  | ok (r : HttpResp)

/-! Translation of the source functions. -/

/-- Translation of detect_api_service (lines 11-41).  The probe argument is
the outcome of the single fallback request to the OpenAI models endpoint;
the Python bare except swallows every exception, so the function is total. -/
def detect_api_service (api_key : String) (probe : ProbeResult) : String :=
  if api_key = "" then "No API key provided"
  else if str_startswith api_key "sk-" then "OpenAI"
  else if gemini_key_match api_key then "Google/Gemini"
  else if str_startswith api_key "sk-ant-" then "Anthropic/Claude"
  else
    match probe with
    | ProbeResult.exc _ => "Unknown API service"
    | ProbeResult.status code => if code = 200 then "OpenAI" else "Unknown API service"

/-- Translation of format_event_info (lines 43-50); date and location lines
are appended only when the field is non-empty (Python truthiness). -/
def format_event_info (name desc date location : String) : String :=
  "Event Name: " ++ name ++ "\n"
  ++ ("Description: " ++ desc ++ "\n")
  ++ (if date ≠ "" then "Date: " ++ date ++ "\n" else "")
  ++ (if location ≠ "" then "Location: " ++ location ++ "\n" else "")

/-- Tone-specific elaboration clause of create_prompt (lines 69-77): the
if/elif chain adds a clause for exactly four tones and nothing otherwise. -/
def tone_clause (tone : String) : String :=
  if tone = "Sarcastic" then
    " Use witty sarcasm and humor while still conveying the important information."
  else if tone = "Professional" then
    " Use formal language and focus on the business value of the event."
  else if tone = "Enthusiastic" then
    " Show high energy and excitement about the event."
  else if tone = "Humorous" then
    " Include appropriate jokes or wordplay while still being informative."
  else ""

/-- Prompt text of create_prompt up to and including the tone restatement
(lines 52-67): header, event info block, platform clause, tone clause
position not yet appended.  char_limit is 280 for Twitter and 1000
otherwise and is only interpolated into the Twitter clause. -/
def create_prompt_base (platform event_info tone : String) : String :=
  let char_limit : Nat := if platform = "Twitter" then 280 else 1000
  "Create a " ++ str_lower tone ++ " " ++ platform ++ " post about the following event:\n\n"
  ++ (event_info ++ "\n")
  ++ (if platform = "LinkedIn" then
        "The post should be professional, informative, and include relevant hashtags. It should be suitable for a business audience."
      else if platform = "Twitter" then
        "The post should be concise (under " ++ toString char_limit ++ " characters), engaging, and include relevant hashtags."
      else if platform = "WhatsApp" then
        "The post should be conversational, informative, and use emojis where appropriate. It should feel personal and friendly."
      else "")
  ++ ("\nThe tone should be " ++ str_lower tone ++ ".")

/-- Translation of create_prompt (lines 52-79): the base text followed by
the tone-specific elaboration clause. -/
def create_prompt (platform event_info tone : String) : String :=
  create_prompt_base platform event_info tone ++ tone_clause tone

/-- Result of one platform iteration of generate_with_openai (lines
101-113).  A transport exception or a parse failure inside the try block is
caught by the generic except handler; a non-200 status stores the raw body
text in an OpenAI error message; a 200 status with a well-shaped body
stores the stripped content. -/
def openai_platform_result (o : NetOutcome) : String :=
  match o with
  | NetOutcome.exc e => "Error: " ++ e
  | NetOutcome.ok r =>
    if r.status = 200 then
      match r.body with
      | BodyParse.content t => str_strip t
      | BodyParse.jsonError e => "Error: " ++ e
      | BodyParse.shapeError e => "Error: " ++ e
    else "Error with OpenAI API: " ++ r.text

/-- Result of one platform iteration of generate_with_gemini (lines
146-163).  Unlike the other two clients, a KeyError or IndexError while
extracting the text is caught by a dedicated inner handler that labels the
message as a Gemini parse error; an empty body text on a non-200 status is
replaced by the fixed text Unknown error. -/
def gemini_platform_result (o : NetOutcome) : String :=
  match o with
  | NetOutcome.exc e => "Error: " ++ e
  | NetOutcome.ok r =>
    if r.status = 200 then
      match r.body with
      | BodyParse.content t => str_strip t
      | BodyParse.jsonError e => "Error: " ++ e
      | BodyParse.shapeError e => "Error parsing Gemini API response: " ++ e
    else "Error with Gemini API: " ++ (if r.text ≠ "" then r.text else "Unknown error")

/-- Result of one platform iteration of generate_with_anthropic (lines
188-200), structured exactly like the OpenAI client but with the Anthropic
error label. -/
def anthropic_platform_result (o : NetOutcome) : String :=
  match o with
  | NetOutcome.exc e => "Error: " ++ e
  | NetOutcome.ok r =>
    if r.status = 200 then
      match r.body with
      | BodyParse.content t => str_strip t
      | BodyParse.jsonError e => "Error: " ++ e
      | BodyParse.shapeError e => "Error: " ++ e
    else "Error with Anthropic API: " ++ r.text

/-- Fixed platform iteration order used by every generator (line 91 and
the identical loops of the other clients). -/
def gen_platforms : List String := ["LinkedIn", "Twitter", "WhatsApp"]

/-- Translation of generate_with_openai (lines 81-115).  resp is the
network oracle: it yields the outcome of the single request issued for a
given platform carrying a given prompt; api_key only enters the request
headers, which are part of the abstracted request.  The Python dict built
by the loop is modelled as an association list in iteration order. -/
def generate_with_openai (resp : String → String → NetOutcome)
    (api_key name desc date location tone : String) : List (String × String) :=
  let event_info := format_event_info name desc date location
  let _ := api_key
  gen_platforms.map (fun p => (p, openai_platform_result (resp p (create_prompt p event_info tone))))

/-- Translation of generate_with_gemini (lines 117-165); the api_key is
carried in the request URL, again part of the abstracted request. -/
def generate_with_gemini (resp : String → String → NetOutcome)
    (api_key name desc date location tone : String) : List (String × String) :=
  let event_info := format_event_info name desc date location
  let _ := api_key
  gen_platforms.map (fun p => (p, gemini_platform_result (resp p (create_prompt p event_info tone))))

/-- Translation of generate_with_anthropic (lines 167-202). -/
def generate_with_anthropic (resp : String → String → NetOutcome)
    (api_key name desc date location tone : String) : List (String × String) :=
  let event_info := format_event_info name desc date location
  let _ := api_key
  gen_platforms.map (fun p => (p, anthropic_platform_result (resp p (create_prompt p event_info tone))))

/-- Baseline LinkedIn mock post (lines 210-216). -/
def mock_linkedin_base (name desc date location : String) : String :=
  "I\x27m excited to announce " ++ name ++ "!\n\n"
  ++ (desc ++ "\n\n")
  ++ (if date ≠ "" then "📅 When: " ++ date ++ "\n" else "")
  ++ (if location ≠ "" then "📍 Where: " ++ location ++ "\n" else "")
  ++ "\nLooking forward to connecting with industry professionals at this event. #ProfessionalDevelopment #Networking"

/-- Baseline Twitter mock post (lines 219-222): the description is cut to
its first 80 code points plus an ellipsis only when longer than 100, and
the date-location fragment appears only when both fields are non-empty. -/
def mock_twitter_base (name desc date location : String) : String :=
  "Join us for " ++ name ++ "! "
  ++ (if desc.length > 100 then str_take desc 80 ++ "..." else desc)
  ++ (if date ≠ "" ∧ location ≠ "" then " " ++ date ++ " at " ++ location else "")
  ++ " #excited #event"

/-- Baseline WhatsApp mock post (lines 225-231). -/
def mock_whatsapp_base (name desc date location : String) : String :=
  "Hey everyone! 👋\n\nJust wanted to let you know about " ++ name ++ ".\n\n"
  ++ (desc ++ "\n\n")
  ++ (if date ≠ "" then "📅 Date: " ++ date ++ "\n" else "")
  ++ (if location ≠ "" then "📍 Location: " ++ location ++ "\n" else "")
  ++ "\nHope to see you there! Feel free to share with others who might be interested. 😊"

/-- Sarcastic LinkedIn mock post (lines 235-239); the date-location
sentence appears only when both fields are non-empty. -/
def mock_linkedin_sarcastic (name desc date location : String) : String :=
  "Oh great, another event to add to your calendar: " ++ name ++ ". 🙄\n\n"
  ++ (desc ++ "\n\n")
  ++ (if date ≠ "" ∧ location ≠ "" then
        "If you really have nothing better to do on " ++ date ++ " at " ++ location ++ ", I guess you could show up.\n\n"
      else "")
  ++ "Can\x27t wait to pretend to be interested in small talk. #NetworkingJoy #ProfessionalSmiling"

/-- Sarcastic Twitter mock post (lines 241-243). -/
def mock_twitter_sarcastic (name desc date location : String) : String :=
  let _ := desc
  "Wow, " ++ name ++ "! Because what we all needed was ANOTHER event to attend. 🙄 "
  ++ (if date ≠ "" ∧ location ≠ "" then date ++ " at " ++ location else "")
  ++ " #blessed #sarcasm"

/-- Sarcastic WhatsApp mock post (lines 245-249). -/
def mock_whatsapp_sarcastic (name desc date location : String) : String :=
  "Attention everyone! 📢\n\nApparently we\x27re supposed to be excited about " ++ name ++ ".\n\n"
  ++ (desc ++ "\n\n")
  ++ (if date ≠ "" ∧ location ≠ "" then
        "Mark your calendars (or don\x27t) for " ++ date ++ " at " ++ location ++ ".\n\n"
      else "")
  ++ "Feel free to come up with creative excuses not to attend. 😂"

/-- Enthusiastic LinkedIn mock post (lines 252-256). -/
def mock_linkedin_enthusiastic (name desc date location : String) : String :=
  "🎉 INCREDIBLY EXCITED to announce " ++ name ++ "!! 🎉\n\n"
  ++ (desc ++ "\n\n")
  ++ (if date ≠ "" ∧ location ≠ "" then
        "📅 MARK YOUR CALENDARS: " ++ date ++ "\n📍 BE THERE: " ++ location ++ "\n\n"
      else "")
  ++ "This is going to be ABSOLUTELY AMAZING!! Can\x27t WAIT to see everyone there!!! #Excited #BestEventEver"

/-- Enthusiastic Twitter mock post (lines 258-260). -/
def mock_twitter_enthusiastic (name desc date location : String) : String :=
  let _ := desc
  "OMG! You DO NOT want to miss " ++ name ++ "!! It\x27s going to be INCREDIBLE! "
  ++ (if date ≠ "" ∧ location ≠ "" then date ++ " at " ++ location else "")
  ++ " #CantWait #SoExcited"

/-- Enthusiastic WhatsApp mock post (lines 262-266). -/
def mock_whatsapp_enthusiastic (name desc date location : String) : String :=
  "HEY EVERYONE!!! 🔥🔥🔥\n\nDROP EVERYTHING YOU\x27RE DOING! " ++ name ++ " is happening and it\x27s going to be EPIC!!!\n\n"
  ++ (desc ++ "\n\n")
  ++ (if date ≠ "" ∧ location ≠ "" then
        "📅 When: " ++ date ++ " (SET THOSE ALARMS!)\n📍 Where: " ++ location ++ " (GET THERE EARLY!)\n\n"
      else "")
  ++ "I AM SOOOO EXCITED!!! 🎉🎉🎉 PLEASE COME!!! SHARE WITH EVERYONE!!!"

/-- Translation of generate_mock_posts (lines 204-272): the three baseline
posts are computed first and the Sarcastic and Enthusiastic branches then
rebind all three variables to fresh template text, which is exactly a
selection between the template families; the result dict is filled with
the three platform keys at lines 268-270. -/
def generate_mock_posts (name desc date location tone : String) : List (String × String) :=
  let linkedin_post :=
    if tone = "Sarcastic" then mock_linkedin_sarcastic name desc date location
    else if tone = "Enthusiastic" then mock_linkedin_enthusiastic name desc date location
    else mock_linkedin_base name desc date location
  let twitter_post :=
    if tone = "Sarcastic" then mock_twitter_sarcastic name desc date location
    else if tone = "Enthusiastic" then mock_twitter_enthusiastic name desc date location
    else mock_twitter_base name desc date location
  let whatsapp_post :=
    if tone = "Sarcastic" then mock_whatsapp_sarcastic name desc date location
    else if tone = "Enthusiastic" then mock_whatsapp_enthusiastic name desc date location
    else mock_whatsapp_base name desc date location
  [("LinkedIn", linkedin_post), ("Twitter", twitter_post), ("WhatsApp", whatsapp_post)]

/-- Translation of the Generate-button handler in main (lines 364-380).
The return value is the new session posts mapping, the error message shown
by st.error if any, and which generator ran (none when validation blocks
the run).  The three network oracles stand for the requests the three
provider clients would issue. -/
def generate_click (posts : List (String × String))
    (service api_key name desc date location tone : String)
    (respO respG respA : String → String → NetOutcome) :
    List (String × String) × Option String × Option String :=
  if name = "" ∨ desc = "" then
    (posts, some "Event name and description are required!", none)
  else if service = "OpenAI" then
    (generate_with_openai respO api_key name desc date location tone, none, some "OpenAI")
  else if service = "Google/Gemini" then
    (generate_with_gemini respG api_key name desc date location tone, none, some "Google/Gemini")
  else if service = "Anthropic/Claude" then
    (generate_with_anthropic respA api_key name desc date location tone, none, some "Anthropic/Claude")
  else
    (generate_mock_posts name desc date location tone, none, some "Mock")

/-! Helper lemmas shared by the claim theorems. -/

/-- Transitivity of the modelled startswith: a string starting with
sk-ant- also starts with sk-. -/
theorem str_startswith_sk_of_sk_ant (key : String)
    (h : str_startswith key "sk-ant-" = true) : str_startswith key "sk-" = true := by
  simp only [str_startswith, List.isPrefixOf_iff_prefix] at *
  exact List.IsPrefix.trans (by decide) h

/-- A string starting with sk-ant- is non-empty. -/
theorem ne_empty_of_startswith_sk_ant (key : String)
    (h : str_startswith key "sk-ant-" = true) : key ≠ "" := by
  simp only [str_startswith, List.isPrefixOf_iff_prefix] at h
  intro he
  subst he
  simp at h

/-- Non-empty strings have positive length. -/
theorem str_length_pos (s : String) (h : s ≠ "") : 0 < s.length := by
  cases s with
  | mk l =>
    cases l with
    | nil => simp at h
    | cons c cs => simp

/-- Lookup of a platform key in an OpenAI generation run gives exactly the
result computed from that platform's own response. -/
theorem lookup_generate_with_openai (resp : String → String → NetOutcome)
    (api_key name desc date location tone p : String) (hp : p ∈ gen_platforms) :
    List.lookup p (generate_with_openai resp api_key name desc date location tone)
      = some (openai_platform_result (resp p (create_prompt p (format_event_info name desc date location) tone))) := by
  simp only [gen_platforms, List.mem_cons, List.not_mem_nil, or_false] at hp
  rcases hp with rfl | rfl | rfl <;> rfl

/-- Lookup of a platform key in a Gemini generation run gives exactly the
result computed from that platform's own response. -/
theorem lookup_generate_with_gemini (resp : String → String → NetOutcome)
    (api_key name desc date location tone p : String) (hp : p ∈ gen_platforms) :
    List.lookup p (generate_with_gemini resp api_key name desc date location tone)
      = some (gemini_platform_result (resp p (create_prompt p (format_event_info name desc date location) tone))) := by
  simp only [gen_platforms, List.mem_cons, List.not_mem_nil, or_false] at hp
  rcases hp with rfl | rfl | rfl <;> rfl

/-- Lookup of a platform key in an Anthropic generation run gives exactly
the result computed from that platform's own response. -/
theorem lookup_generate_with_anthropic (resp : String → String → NetOutcome)
    (api_key name desc date location tone p : String) (hp : p ∈ gen_platforms) :
    List.lookup p (generate_with_anthropic resp api_key name desc date location tone)
      = some (anthropic_platform_result (resp p (create_prompt p (format_event_info name desc date location) tone))) := by
  simp only [gen_platforms, List.mem_cons, List.not_mem_nil, or_false] at hp
  rcases hp with rfl | rfl | rfl <;> rfl

/-- With any tone other than Sarcastic and Enthusiastic the mock generator
returns exactly the three baseline templates. -/
theorem generate_mock_posts_base_eq (name desc date location tone : String)
    (hS : tone ≠ "Sarcastic") (hE : tone ≠ "Enthusiastic") :
    generate_mock_posts name desc date location tone
      = [("LinkedIn", mock_linkedin_base name desc date location),
         ("Twitter", mock_twitter_base name desc date location),
         ("WhatsApp", mock_whatsapp_base name desc date location)] := by
  simp [generate_mock_posts, hS, hE]

/-- Looking up each platform in a baseline (Professional tone) mock run
yields the corresponding baseline template. -/
theorem mock_base_lookup (name desc date location : String) :
    List.lookup "LinkedIn" (generate_mock_posts name desc date location "Professional")
      = some (mock_linkedin_base name desc date location)
    ∧ List.lookup "Twitter" (generate_mock_posts name desc date location "Professional")
      = some (mock_twitter_base name desc date location)
    ∧ List.lookup "WhatsApp" (generate_mock_posts name desc date location "Professional")
      = some (mock_whatsapp_base name desc date location) :=
  ⟨rfl, rfl, rfl⟩

/-! Claim theorems. -/

/-- C1: the claim says every credential starting with sk-ant- is
classified Anthropic/Claude because that rule is checked before the
generic sk- rule.  The code does the opposite: line 16 tests the generic
sk- first, so the dedicated sk-ant- branch at line 24 is unreachable and
every sk-ant- key is classified OpenAI, for every probe outcome. -/
theorem detect_api_service_sk_ant_returns_openai (key : String) (probe : ProbeResult)
    (h : str_startswith key "sk-ant-" = true) :
    detect_api_service key probe = "OpenAI"
    ∧ detect_api_service key probe ≠ "Anthropic/Claude" := by
  have h2 := str_startswith_sk_of_sk_ant key h
  have h1 := ne_empty_of_startswith_sk_ant key h
  refine ⟨?_, ?_⟩ <;> simp [detect_api_service, h1, h2]

/-- Witness for C1 at the concrete failing input sk-ant-api03-test with a
failing probe. -/
theorem detect_api_service_sk_ant_returns_openai_witness :
    detect_api_service "sk-ant-api03-test" (ProbeResult.exc "connection refused") = "OpenAI"
    ∧ detect_api_service "sk-ant-api03-test" (ProbeResult.exc "connection refused") ≠ "Anthropic/Claude" :=
  detect_api_service_sk_ant_returns_openai "sk-ant-api03-test" (ProbeResult.exc "connection refused") (by decide)

/-- C9: create_prompt is deterministic, a pure function of platform, event
info block and tone: equal inputs give identical prompt text. -/
theorem create_prompt_deterministic
    (platform event_info tone platform2 event_info2 tone2 : String)
    (hp : platform = platform2) (hi : event_info = event_info2) (ht : tone = tone2) :
    create_prompt platform event_info tone = create_prompt platform2 event_info2 tone2 := by
  subst hp
  subst hi
  subst ht
  rfl

/-- Witness for C9 at a concrete triple of inputs. -/
theorem create_prompt_deterministic_witness :
    create_prompt "Twitter" "Event Name: X\nDescription: Y\n" "Casual"
      = create_prompt "Twitter" "Event Name: X\nDescription: Y\n" "Casual" :=
  create_prompt_deterministic "Twitter" "Event Name: X\nDescription: Y\n" "Casual"
    "Twitter" "Event Name: X\nDescription: Y\n" "Casual" rfl rfl rfl

/-- C7: when the Generate action runs with an empty event name or an empty
event description, the handler shows the required-fields error, invokes no
generator, and leaves the stored posts mapping unchanged. -/
theorem generate_blocked_on_missing_required_fields
    (posts : List (String × String))
    (service api_key name desc date location tone : String)
    (respO respG respA : String → String → NetOutcome)
    (h : name = "" ∨ desc = "") :
    generate_click posts service api_key name desc date location tone respO respG respA
      = (posts, some "Event name and description are required!", none) := by
  rcases h with h | h <;> simp [generate_click, h]

/-- Witness for C7: empty description with non-empty prior posts. -/
theorem generate_blocked_on_missing_required_fields_witness :
    generate_click [("LinkedIn", "old post"), ("Twitter", "old tweet"), ("WhatsApp", "old message")]
        "OpenAI" "sk-123" "Tech Conf" "" "May 1" "NYC" "Professional"
        (fun _ _ => NetOutcome.exc "offline") (fun _ _ => NetOutcome.exc "offline")
        (fun _ _ => NetOutcome.exc "offline")
      = ([("LinkedIn", "old post"), ("Twitter", "old tweet"), ("WhatsApp", "old message")],
         some "Event name and description are required!", none) :=
  generate_blocked_on_missing_required_fields _ _ _ _ _ _ _ _ _ _ _ (Or.inr rfl)

/-- C6: create_prompt appends a tone-specific elaboration clause for
exactly the four tones Sarcastic, Professional, Enthusiastic and Humorous,
and appends nothing beyond the base prompt for Casual and Formal. -/
theorem create_prompt_tone_elaboration_exactly_four (platform event_info : String) :
    create_prompt platform event_info "Sarcastic"
      = create_prompt_base platform event_info "Sarcastic"
        ++ " Use witty sarcasm and humor while still conveying the important information."
    ∧ create_prompt platform event_info "Professional"
      = create_prompt_base platform event_info "Professional"
        ++ " Use formal language and focus on the business value of the event."
    ∧ create_prompt platform event_info "Enthusiastic"
      = create_prompt_base platform event_info "Enthusiastic"
        ++ " Show high energy and excitement about the event."
    ∧ create_prompt platform event_info "Humorous"
      = create_prompt_base platform event_info "Humorous"
        ++ " Include appropriate jokes or wordplay while still being informative."
    ∧ create_prompt platform event_info "Casual" = create_prompt_base platform event_info "Casual"
    ∧ create_prompt platform event_info "Formal" = create_prompt_base platform event_info "Formal" := by
  refine ⟨rfl, rfl, rfl, rfl, ?_, ?_⟩ <;>
    simp [create_prompt, tone_clause, String.append_empty]

/-- C2: every completed generation run, whichever of the four generators
ran, returns a mapping whose keys are exactly LinkedIn, Twitter and
WhatsApp; a platform's entry depends only on that platform's own response,
so one platform's failure cannot change another's entry, and in the
concrete 401-on-LinkedIn scenario the failing platform gets an error
string while the other two get their generated text. -/
theorem generation_result_three_keys_and_isolation
    (respO respO2 respG respA : String → String → NetOutcome)
    (api_key name desc date location tone p : String)
    (hp : p ∈ gen_platforms)
    (hagree : ∀ prompt, respO p prompt = respO2 p prompt) :
    (generate_with_openai respO api_key name desc date location tone).map Prod.fst
      = ["LinkedIn", "Twitter", "WhatsApp"]
    ∧ (generate_with_gemini respG api_key name desc date location tone).map Prod.fst
      = ["LinkedIn", "Twitter", "WhatsApp"]
    ∧ (generate_with_anthropic respA api_key name desc date location tone).map Prod.fst
      = ["LinkedIn", "Twitter", "WhatsApp"]
    ∧ (generate_mock_posts name desc date location tone).map Prod.fst
      = ["LinkedIn", "Twitter", "WhatsApp"]
    ∧ List.lookup p (generate_with_openai respO api_key name desc date location tone)
      = List.lookup p (generate_with_openai respO2 api_key name desc date location tone)
    ∧ ∀ errBody cT cW : String,
        generate_with_openai
          (fun q _ =>
            if q = "LinkedIn" then NetOutcome.ok ⟨401, errBody, BodyParse.jsonError ""⟩
            else if q = "Twitter" then NetOutcome.ok ⟨200, "", BodyParse.content cT⟩
            else NetOutcome.ok ⟨200, "", BodyParse.content cW⟩)
          api_key name desc date location tone
        = [("LinkedIn", "Error with OpenAI API: " ++ errBody),
           ("Twitter", str_strip cT), ("WhatsApp", str_strip cW)] := by
  refine ⟨rfl, rfl, rfl, rfl, ?_, ?_⟩
  · rw [lookup_generate_with_openai respO api_key name desc date location tone p hp,
      lookup_generate_with_openai respO2 api_key name desc date location tone p hp, hagree]
  · intro errBody cT cW
    rfl

/-- Witness for C2: the 401-on-LinkedIn scenario at concrete inputs. -/
theorem generation_result_three_keys_and_isolation_witness :
    generate_with_openai
        (fun q _ =>
          if q = "LinkedIn" then NetOutcome.ok ⟨401, "unauthorized", BodyParse.jsonError ""⟩
          else if q = "Twitter" then NetOutcome.ok ⟨200, "", BodyParse.content "tweet text"⟩
          else NetOutcome.ok ⟨200, "", BodyParse.content "wa text"⟩)
        "sk-123" "Launch" "Demo day" "" "" "Casual"
      = [("LinkedIn", "Error with OpenAI API: " ++ "unauthorized"),
         ("Twitter", str_strip "tweet text"), ("WhatsApp", str_strip "wa text")] :=
  (generation_result_three_keys_and_isolation
      (fun _ _ => NetOutcome.exc "offline") (fun _ _ => NetOutcome.exc "offline")
      (fun _ _ => NetOutcome.exc "offline") (fun _ _ => NetOutcome.exc "offline")
      "sk-123" "Launch" "Demo day" "" "" "Casual" "Twitter"
      (by decide) (fun _ => rfl)).2.2.2.2.2 "unauthorized" "tweet text" "wa text"

/-- C3: for each provider client, a 200 response whose body does not match
the expected shape (missing key or out-of-range index) makes the client
store a parse-derived error string for that platform — the Gemini client
labels it explicitly, the OpenAI and Anthropic clients store the
stringified exception through their generic handler — and the remaining
platforms are still processed from their own responses. -/
theorem provider_parse_error_stored_and_run_continues
    (respO respG respA : String → String → NetOutcome)
    (api_key name desc date location tone p bodyText e : String)
    (hp : p ∈ gen_platforms)
    (hO : ∀ prompt, respO p prompt = NetOutcome.ok ⟨200, bodyText, BodyParse.shapeError e⟩)
    (hG : ∀ prompt, respG p prompt = NetOutcome.ok ⟨200, bodyText, BodyParse.shapeError e⟩)
    (hA : ∀ prompt, respA p prompt = NetOutcome.ok ⟨200, bodyText, BodyParse.shapeError e⟩) :
    List.lookup p (generate_with_openai respO api_key name desc date location tone)
      = some ("Error: " ++ e)
    ∧ List.lookup p (generate_with_gemini respG api_key name desc date location tone)
      = some ("Error parsing Gemini API response: " ++ e)
    ∧ List.lookup p (generate_with_anthropic respA api_key name desc date location tone)
      = some ("Error: " ++ e)
    ∧ ∀ q, q ∈ gen_platforms → q ≠ p →
        List.lookup q (generate_with_openai respO api_key name desc date location tone)
          = some (openai_platform_result
              (respO q (create_prompt q (format_event_info name desc date location) tone)))
        ∧ List.lookup q (generate_with_gemini respG api_key name desc date location tone)
          = some (gemini_platform_result
              (respG q (create_prompt q (format_event_info name desc date location) tone)))
        ∧ List.lookup q (generate_with_anthropic respA api_key name desc date location tone)
          = some (anthropic_platform_result
              (respA q (create_prompt q (format_event_info name desc date location) tone))) := by
  refine ⟨?_, ?_, ?_, ?_⟩
  · rw [lookup_generate_with_openai respO api_key name desc date location tone p hp, hO]
    rfl
  · rw [lookup_generate_with_gemini respG api_key name desc date location tone p hp, hG]
    rfl
  · rw [lookup_generate_with_anthropic respA api_key name desc date location tone p hp, hA]
    rfl
  · intro q hq _
    exact ⟨lookup_generate_with_openai respO api_key name desc date location tone q hq,
      lookup_generate_with_gemini respG api_key name desc date location tone q hq,
      lookup_generate_with_anthropic respA api_key name desc date location tone q hq⟩

/-- Witness for C3: a malformed 200 body on the Twitter request, with the
WhatsApp platform still processed from its own response. -/
theorem provider_parse_error_stored_and_run_continues_witness :
    List.lookup "Twitter"
        (generate_with_openai (fun _ _ => NetOutcome.ok ⟨200, "\x7b\x7d", BodyParse.shapeError "KeyError"⟩)
          "sk-123" "Ev" "De" "" "" "Casual")
      = some ("Error: " ++ "KeyError") :=
  (provider_parse_error_stored_and_run_continues
      (fun _ _ => NetOutcome.ok ⟨200, "\x7b\x7d", BodyParse.shapeError "KeyError"⟩)
      (fun _ _ => NetOutcome.ok ⟨200, "\x7b\x7d", BodyParse.shapeError "KeyError"⟩)
      (fun _ _ => NetOutcome.ok ⟨200, "\x7b\x7d", BodyParse.shapeError "KeyError"⟩)
      "sk-123" "Ev" "De" "" "" "Casual" "Twitter" "\x7b\x7d" "KeyError"
      (by decide) (fun _ => rfl) (fun _ => rfl) (fun _ => rfl)).1

/-- C4: the mock generator performs a full template swap: with tone
Sarcastic all three posts are exactly the sarcastic alternate templates,
with tone Enthusiastic exactly the enthusiastic ones (the alternate
template definitions contain none of the baseline wording), and with every
other tone — Professional included — the three baseline templates are
returned unchanged. -/
theorem mock_tone_full_template_swap
    (name desc date location tone : String)
    (hS : tone ≠ "Sarcastic") (hE : tone ≠ "Enthusiastic") :
    generate_mock_posts name desc date location "Sarcastic"
      = [("LinkedIn", mock_linkedin_sarcastic name desc date location),
         ("Twitter", mock_twitter_sarcastic name desc date location),
         ("WhatsApp", mock_whatsapp_sarcastic name desc date location)]
    ∧ generate_mock_posts name desc date location "Enthusiastic"
      = [("LinkedIn", mock_linkedin_enthusiastic name desc date location),
         ("Twitter", mock_twitter_enthusiastic name desc date location),
         ("WhatsApp", mock_whatsapp_enthusiastic name desc date location)]
    ∧ generate_mock_posts name desc date location tone
      = [("LinkedIn", mock_linkedin_base name desc date location),
         ("Twitter", mock_twitter_base name desc date location),
         ("WhatsApp", mock_whatsapp_base name desc date location)] :=
  ⟨rfl, rfl, generate_mock_posts_base_eq name desc date location tone hS hE⟩

/-- Witness for C4 with tone Professional at concrete inputs. -/
theorem mock_tone_full_template_swap_witness :
    generate_mock_posts "Conf" "Great" "May 1" "NYC" "Sarcastic"
      = [("LinkedIn", mock_linkedin_sarcastic "Conf" "Great" "May 1" "NYC"),
         ("Twitter", mock_twitter_sarcastic "Conf" "Great" "May 1" "NYC"),
         ("WhatsApp", mock_whatsapp_sarcastic "Conf" "Great" "May 1" "NYC")]
    ∧ generate_mock_posts "Conf" "Great" "May 1" "NYC" "Enthusiastic"
      = [("LinkedIn", mock_linkedin_enthusiastic "Conf" "Great" "May 1" "NYC"),
         ("Twitter", mock_twitter_enthusiastic "Conf" "Great" "May 1" "NYC"),
         ("WhatsApp", mock_whatsapp_enthusiastic "Conf" "Great" "May 1" "NYC")]
    ∧ generate_mock_posts "Conf" "Great" "May 1" "NYC" "Professional"
      = [("LinkedIn", mock_linkedin_base "Conf" "Great" "May 1" "NYC"),
         ("Twitter", mock_twitter_base "Conf" "Great" "May 1" "NYC"),
         ("WhatsApp", mock_whatsapp_base "Conf" "Great" "May 1" "NYC")] :=
  mock_tone_full_template_swap "Conf" "Great" "May 1" "NYC" "Professional"
    (by decide) (by decide)

/-- C5: the baseline mock Twitter post uses the first 80 code points of the
description followed by an ellipsis exactly when the description is longer
than 100 code points, and the full unmodified description otherwise,
lengths 81 through 100 included. -/
theorem mock_twitter_description_truncation (name desc date location : String) :
    List.lookup "Twitter" (generate_mock_posts name desc date location "Professional")
      = some (mock_twitter_base name desc date location)
    ∧ (100 < desc.length →
        mock_twitter_base name desc date location
          = "Join us for " ++ name ++ "! " ++ (str_take desc 80 ++ "...")
            ++ (if date ≠ "" ∧ location ≠ "" then " " ++ date ++ " at " ++ location else "")
            ++ " #excited #event")
    ∧ (desc.length ≤ 100 →
        mock_twitter_base name desc date location
          = "Join us for " ++ name ++ "! " ++ desc
            ++ (if date ≠ "" ∧ location ≠ "" then " " ++ date ++ " at " ++ location else "")
            ++ " #excited #event") := by
  refine ⟨(mock_base_lookup name desc date location).2.1, ?_, ?_⟩
  · intro h
    simp only [mock_twitter_base]
    rw [if_pos h]
  · intro h
    simp only [mock_twitter_base]
    rw [if_neg (by omega : ¬ desc.length > 100)]

/-- Witness for C5: one description of 120 code points (truncated to the
first 80 plus an ellipsis) and one of 90 code points (kept whole). -/
theorem mock_twitter_description_truncation_witness :
    mock_twitter_base "Conf"
        "aaaaaaaaaaaaaaaaaaaaaaaaaaaaaaaaaaaaaaaabbbbbbbbbbbbbbbbbbbbbbbbbbbbbbbbbbbbbbbbcccccccccccccccccccccccccccccccccccccccc"
        "" ""
      = "Join us for " ++ "Conf" ++ "! "
        ++ (str_take "aaaaaaaaaaaaaaaaaaaaaaaaaaaaaaaaaaaaaaaabbbbbbbbbbbbbbbbbbbbbbbbbbbbbbbbbbbbbbbbcccccccccccccccccccccccccccccccccccccccc" 80 ++ "...")
        ++ (if ("" : String) ≠ "" ∧ ("" : String) ≠ "" then " " ++ "" ++ " at " ++ "" else "")
        ++ " #excited #event"
    ∧ mock_twitter_base "Conf"
        "aaaaaaaaaaaaaaaaaaaaaaaaaaaaaaaaaaaaaaaabbbbbbbbbbbbbbbbbbbbbbbbbbbbbbbbbbbbbbbbcccccccccc"
        "" ""
      = "Join us for " ++ "Conf" ++ "! "
        ++ "aaaaaaaaaaaaaaaaaaaaaaaaaaaaaaaaaaaaaaaabbbbbbbbbbbbbbbbbbbbbbbbbbbbbbbbbbbbbbbbcccccccccc"
        ++ (if ("" : String) ≠ "" ∧ ("" : String) ≠ "" then " " ++ "" ++ " at " ++ "" else "")
        ++ " #excited #event" :=
  ⟨(mock_twitter_description_truncation "Conf"
      "aaaaaaaaaaaaaaaaaaaaaaaaaaaaaaaaaaaaaaaabbbbbbbbbbbbbbbbbbbbbbbbbbbbbbbbbbbbbbbbcccccccccccccccccccccccccccccccccccccccc"
      "" "").2.1 (by decide),
   (mock_twitter_description_truncation "Conf"
      "aaaaaaaaaaaaaaaaaaaaaaaaaaaaaaaaaaaaaaaabbbbbbbbbbbbbbbbbbbbbbbbbbbbbbbbbbbbbbbbcccccccccc"
      "" "").2.2 (by decide)⟩

/-- C8: detect_api_service always returns one of its five classification
strings — the embedding is a total function, matching the bare except that
swallows every probe failure — and whenever no pattern rule fires, a probe
transport exception or any non-200 probe status yields the Unknown
classification. -/
theorem detect_api_service_total_and_swallows_failures
    (api_key e : String) (code : Nat)
    (h1 : api_key ≠ "")
    (h2 : str_startswith api_key "sk-" = false)
    (h3 : gemini_key_match api_key = false)
    (h4 : str_startswith api_key "sk-ant-" = false)
    (hc : code ≠ 200) :
    detect_api_service api_key (ProbeResult.exc e) = "Unknown API service"
    ∧ detect_api_service api_key (ProbeResult.status code) = "Unknown API service"
    ∧ ∀ (k : String) (pr : ProbeResult),
        detect_api_service k pr
          ∈ ["No API key provided", "OpenAI", "Google/Gemini", "Anthropic/Claude",
             "Unknown API service"] := by
  refine ⟨?_, ?_, ?_⟩
  · simp [detect_api_service, h1, h2, h3, h4]
  · simp [detect_api_service, h1, h2, h3, h4, hc]
  · intro k pr
    unfold detect_api_service
    rcases pr with e2 | code2 <;> (repeat' split) <;> simp

/-- Witness for C8 with an unrecognized key, a transport error and a 401
probe status. -/
theorem detect_api_service_total_and_swallows_failures_witness :
    detect_api_service "mystery-key-123" (ProbeResult.exc "timeout") = "Unknown API service"
    ∧ detect_api_service "mystery-key-123" (ProbeResult.status 401) = "Unknown API service"
    ∧ ∀ (k : String) (pr : ProbeResult),
        detect_api_service k pr
          ∈ ["No API key provided", "OpenAI", "Google/Gemini", "Anthropic/Claude",
             "Unknown API service"] :=
  detect_api_service_total_and_swallows_failures "mystery-key-123" "timeout" 401
    (by decide) (by decide) (by decide) (by decide) (by decide)

/-- C10: when exactly one of date and location is non-empty, the baseline
Twitter post and all three Sarcastic and all three Enthusiastic posts are
identical to the ones produced with both fields empty — those templates
emit their date-location fragment only when both fields are non-empty —
whereas the baseline LinkedIn and WhatsApp posts include each field
independently, so blanking the present field changes them. -/
theorem mock_joint_date_location_dependency
    (name desc date location : String)
    (h : (date = "" ∧ location ≠ "") ∨ (date ≠ "" ∧ location = "")) :
    List.lookup "Twitter" (generate_mock_posts name desc date location "Professional")
      = List.lookup "Twitter" (generate_mock_posts name desc "" "" "Professional")
    ∧ generate_mock_posts name desc date location "Sarcastic"
      = generate_mock_posts name desc "" "" "Sarcastic"
    ∧ generate_mock_posts name desc date location "Enthusiastic"
      = generate_mock_posts name desc "" "" "Enthusiastic"
    ∧ (date ≠ "" →
        List.lookup "LinkedIn" (generate_mock_posts name desc date location "Professional")
          ≠ List.lookup "LinkedIn" (generate_mock_posts name desc "" location "Professional"))
    ∧ (location ≠ "" →
        List.lookup "LinkedIn" (generate_mock_posts name desc date location "Professional")
          ≠ List.lookup "LinkedIn" (generate_mock_posts name desc date "" "Professional"))
    ∧ (date ≠ "" →
        List.lookup "WhatsApp" (generate_mock_posts name desc date location "Professional")
          ≠ List.lookup "WhatsApp" (generate_mock_posts name desc "" location "Professional"))
    ∧ (location ≠ "" →
        List.lookup "WhatsApp" (generate_mock_posts name desc date location "Professional")
          ≠ List.lookup "WhatsApp" (generate_mock_posts name desc date "" "Professional")) := by
  have hnb : ¬(date ≠ "" ∧ location ≠ "") := by
    rcases h with ⟨h1, h2⟩ | ⟨h1, h2⟩ <;> simp [h1, h2]
  refine ⟨?_, ?_, ?_, ?_, ?_, ?_, ?_⟩
  · rw [(mock_base_lookup name desc date location).2.1, (mock_base_lookup name desc "" "").2.1]
    simp [mock_twitter_base, hnb]
  · simp [generate_mock_posts, mock_linkedin_sarcastic, mock_twitter_sarcastic,
      mock_whatsapp_sarcastic, hnb]
  · simp [generate_mock_posts, mock_linkedin_enthusiastic, mock_twitter_enthusiastic,
      mock_whatsapp_enthusiastic, hnb]
  · intro hd heq
    rw [(mock_base_lookup name desc date location).1, (mock_base_lookup name desc "" location).1]
      at heq
    have hlen := congrArg String.length (Option.some.injEq _ _ ▸ heq :
      mock_linkedin_base name desc date location = mock_linkedin_base name desc "" location)
    have hdl : 0 < date.length := str_length_pos date hd
    simp [mock_linkedin_base, hd, String.length_append, String.append_empty] at hlen
    omega
  · intro hl heq
    rw [(mock_base_lookup name desc date location).1, (mock_base_lookup name desc date "").1]
      at heq
    have hlen := congrArg String.length (Option.some.injEq _ _ ▸ heq :
      mock_linkedin_base name desc date location = mock_linkedin_base name desc date "")
    have hll : 0 < location.length := str_length_pos location hl
    simp [mock_linkedin_base, hl, String.length_append, String.append_empty] at hlen
    omega
  · intro hd heq
    rw [(mock_base_lookup name desc date location).2.2, (mock_base_lookup name desc "" location).2.2]
      at heq
    have hlen := congrArg String.length (Option.some.injEq _ _ ▸ heq :
      mock_whatsapp_base name desc date location = mock_whatsapp_base name desc "" location)
    have hdl : 0 < date.length := str_length_pos date hd
    simp [mock_whatsapp_base, hd, String.length_append, String.append_empty] at hlen
    omega
  · intro hl heq
    rw [(mock_base_lookup name desc date location).2.2, (mock_base_lookup name desc date "").2.2]
      at heq
    have hlen := congrArg String.length (Option.some.injEq _ _ ▸ heq :
      mock_whatsapp_base name desc date location = mock_whatsapp_base name desc date "")
    have hll : 0 < location.length := str_length_pos location hl
    simp [mock_whatsapp_base, hl, String.length_append, String.append_empty] at hlen
    omega

/-- Witness for C10 with a non-empty date and an empty location. -/
theorem mock_joint_date_location_dependency_witness :
    generate_mock_posts "Conf" "Great" "May 1" "" "Sarcastic"
      = generate_mock_posts "Conf" "Great" "" "" "Sarcastic"
    ∧ List.lookup "LinkedIn" (generate_mock_posts "Conf" "Great" "May 1" "" "Professional")
        ≠ List.lookup "LinkedIn" (generate_mock_posts "Conf" "Great" "" "" "Professional") :=
  ⟨(mock_joint_date_location_dependency "Conf" "Great" "May 1" ""
      (Or.inr ⟨by decide, rfl⟩)).2.1,
   (mock_joint_date_location_dependency "Conf" "Great" "May 1" ""
      (Or.inr ⟨by decide, rfl⟩)).2.2.2.1 (by decide)⟩
